import Mathlib

/-
  Verification development for the konnektaro-recorder repository.

  Shallow embedding of:
  - src/src/utils/apiClient.ts           (transcribeAudio, testConnection)
  - src/hooks/useAudioRecorder.ts        (the capture hook, given as an unnamed source file)
  - src/src/components/KonnektaroAudioRecorder.tsx (the recorder component state machine)

  JavaScript values that matter to the embedded code paths are modelled explicitly:
  optional object fields become Option, and the JavaScript truthiness of the
  logical-or fallback chains (where the empty string and undefined are falsy)
  is modelled by jsOrStr / jsFalsy / jsTruthyStr.  Network behaviour is a
  parameter: an HttpOutcome value says what the axios call did (2xx response,
  error-status response with an optional JSON body, no response at all,
  client-side failure with a message, or a non-Error throw).
-/

namespace Konnektaro

/-- Semantics of the JavaScript fallback chain a || b on an optional string field:
undefined and the empty string are falsy. -/
def jsOrStr (a : Option String) (b : String) : String :=
  match a with
  | some s => if s = "" then b else s
  | none => b

/-- Truthiness test for an optional string field: undefined and empty are falsy. -/
def jsFalsy : Option String → Bool
  | none => true
  | some s => decide (s = "")

/-- Truthiness of an optional string prop such as apiUrl: present and nonempty. -/
def jsTruthyStr : Option String → Bool
  | some s => decide (s ≠ "")
  | none => false

/-! Embedding of src/src/utils/apiClient.ts. -/

/-- Flat transcript-carrying fields of a JSON response body, as read by the client. -/
structure FlatFields where
  transcription : Option String := none
  text : Option String := none
deriving DecidableEq

/-- A 2xx response body as seen by transcribeAudio: a possibly-present nested
data object, flat transcript fields, plus a success flag and an error field
that the client code never reads. -/
structure SuccessBody where
  data : Option FlatFields := none
  transcription : Option String := none
  text : Option String := none
  success : Option Bool := none
  error : Option String := none
deriving DecidableEq

/-- The JSON body of an HTTP error response, as read by the catch branch. -/
structure ErrorBody where
  error : Option String := none
  message : Option String := none
deriving DecidableEq

/-- What the network did for one axios call.  Mirrors the branches of the catch
block in apiClient.ts: a 2xx response, an error-status response (error.response
set, with an optional JSON body), a request with no response (error.request set),
an axios or generic Error before any request (message available), or a thrown
non-Error value. -/
inductive HttpOutcome where
  | ok (body : SuccessBody)
  | errorStatus (status : Nat) (body : Option ErrorBody)
  | noResponse
  | clientError (message : String)
  | unknownThrown
deriving DecidableEq

/-- Headers of an outgoing request, restricted to the two the client sets. -/
structure Headers where
  contentType : Option String := none
  authorization : Option String := none
deriving DecidableEq

/-- Executable model of the JavaScript String.prototype.trim call: strip
leading and trailing whitespace. -/
def jsTrim (s : String) : String :=
  ⟨((s.data.dropWhile Char.isWhitespace).reverse.dropWhile Char.isWhitespace).reverse⟩

/-- The JavaScript guard (token && token.trim()) deciding whether an
Authorization header is attached: the token string is truthy (nonempty) and
its trimmed form is truthy (nonempty). -/
def tokenProvided (token : String) : Bool :=
  decide (token ≠ "") && decide (jsTrim token ≠ "")

/-- The optional Authorization header value built by apiClient.ts. -/
def authHeader (token : String) : Option String :=
  if tokenProvided token then some ("Bearer " ++ token) else none

/-- Headers attached by transcribeAudio (apiClient.ts lines 22 to 30). -/
def transcribeHeaders (token : String) : Headers :=
  { contentType := some "multipart/form-data", authorization := authHeader token }

/-- Headers attached by testConnection (apiClient.ts lines 82 to 88). -/
def healthHeaders (token : String) : Headers :=
  { authorization := authHeader token }

/-- An outgoing request: target URL and headers. -/
structure Request where
  url : String
  headers : Headers
deriving DecidableEq

/-- The POST request built by transcribeAudio. -/
def transcribeRequest (apiUrl token : String) : Request :=
  { url := apiUrl ++ "/api/transcribe", headers := transcribeHeaders token }

/-- The GET request built by testConnection. -/
def healthRequest (apiUrl token : String) : Request :=
  { url := apiUrl ++ "/api/health", headers := healthHeaders token }

/-- Result shape of transcribeAudio (the TranscriptionResponse interface). -/
structure TranscriptionResponse where
  transcription : String
  success : Bool
  error : Option String := none
deriving DecidableEq

/-- Transcript extraction on the success path of transcribeAudio:
data = response.data.data || response.data, then
transcription = data.transcription || data.text || the empty string. -/
def extractTranscription (body : SuccessBody) : String :=
  match body.data with
  | some inner => jsOrStr inner.transcription (jsOrStr inner.text "")
  | none => jsOrStr body.transcription (jsOrStr body.text "")

/-- Embedding of transcribeAudio (apiClient.ts lines 10 to 77), with the
network behaviour passed in as an HttpOutcome.  The try/catch makes the
function total: every outcome maps to a TranscriptionResponse, never a throw. -/
def transcribeAudio (audioBlob : Nat) (apiUrl token : String) (timeout : Nat)
    (outcome : HttpOutcome) : TranscriptionResponse :=
  match outcome with
  | .ok body =>
      { transcription := extractTranscription body, success := true }
  | .errorStatus status body =>
      { transcription := "", success := false,
        error := some (jsOrStr (body.bind ErrorBody.error)
          (jsOrStr (body.bind ErrorBody.message) ("HTTP " ++ toString status))) }
  | .noResponse =>
      { transcription := "", success := false,
        error := some "Network error - no response from server" }
  | .clientError message =>
      { transcription := "", success := false, error := some message }
  | .unknownThrown =>
      { transcription := "", success := false, error := some "Unknown error occurred" }

/-- True exactly when the outcome carries an HTTP response of any status. -/
def responseReceived : HttpOutcome → Bool
  | .ok _ => true
  | .errorStatus _ _ => true
  | .noResponse => false
  | .clientError _ => false
  | .unknownThrown => false

/-- Embedding of testConnection (apiClient.ts lines 80 to 103): the success
path returns true, the catch branch returns true exactly when the axios error
carries a response object, and false otherwise. -/
def testConnection (apiUrl token : String) (outcome : HttpOutcome) : Bool :=
  match outcome with
  | .ok _ => true
  | .errorStatus _ _ => true
  | .noResponse => false
  | .clientError _ => false
  | .unknownThrown => false

/-- C4: for every endpoint and optional credential, the connectivity probe
reports reachable exactly when some HTTP response was received (any status,
404 included) and unreachable exactly when no response arrived at all. -/
theorem c4_probe_reachability (apiUrl token : String) (outcome : HttpOutcome) :
    (testConnection apiUrl token outcome = responseReceived outcome) ∧
    testConnection apiUrl token (.errorStatus 404 none) = true ∧
    testConnection apiUrl token .noResponse = false := by
  refine ⟨?_, rfl, rfl⟩
  cases outcome <;> rfl

/-- C5: the transcription request carries no Authorization header when no
credential is supplied, carries exactly the header value built as Bearer
followed by the token whenever a real (non-blank) credential is supplied, an
empty or blank bearer value is never sent, and the handling of the network
outcome is independent of the token, so a missing credential is not treated
as a configuration error. -/
theorem c5_authorization_header (apiUrl token : String) :
    (token = "" → (transcribeRequest apiUrl token).headers.authorization = none) ∧
    (jsTrim token ≠ "" →
      (transcribeRequest apiUrl token).headers.authorization = some ("Bearer " ++ token)) ∧
    (∀ h, (transcribeRequest apiUrl token).headers.authorization = some h →
      jsTrim token ≠ "" ∧ h = "Bearer " ++ token) ∧
    (∀ (blob timeout : Nat) (token2 : String) (o : HttpOutcome),
      transcribeAudio blob apiUrl "" timeout o = transcribeAudio blob apiUrl token2 timeout o) := by
  refine ⟨?_, ?_, ?_, ?_⟩
  · intro h
    subst h
    rfl
  · intro h
    have hne : token ≠ "" := by
      intro h0
      subst h0
      exact h rfl
    have hp : tokenProvided token = true := by
      simp only [tokenProvided, Bool.and_eq_true, decide_eq_true_eq]
      exact ⟨hne, h⟩
    simp only [transcribeRequest, transcribeHeaders, authHeader, if_pos hp]
  · intro h hh
    simp only [transcribeRequest, transcribeHeaders, authHeader] at hh
    by_cases hp : tokenProvided token = true
    · rw [if_pos hp] at hh
      have h2 := Option.some.inj hh
      have h3 : jsTrim token ≠ "" := by
        simp only [tokenProvided, Bool.and_eq_true, decide_eq_true_eq] at hp
        exact hp.2
      exact ⟨h3, h2.symm⟩
    · rw [if_neg hp] at hh
      exact absurd hh (by simp)
  · intro blob timeout token2 o
    cases o <;> rfl

/-- Witness for C5 at a concrete credential. -/
theorem c5_authorization_header_witness :
    (transcribeRequest "https://api.test" "tok").headers.authorization =
      some ("Bearer " ++ "tok") :=
  (c5_authorization_header "https://api.test" "tok").2.1 (by decide)

/-! Embedding of src/src/components/KonnektaroAudioRecorder.tsx.  Audio blobs
are identified by natural numbers (each capture session produces a fresh blob
object, so identity, not content, is what the effect dependency compares). -/

/-- The connectionStatus state of the component. -/
inductive ConnStatus where
  | checking
  | connected
  | error
deriving DecidableEq

/-- The component state fields relevant to the embedded handlers, together
with the hook-provided values the component reads (isRecording, hasPermission,
audioBlob). -/
structure CompState where
  apiUrl : String := ""
  token : String := ""
  timeout : Nat := 60000
  errorMsg : String := ""
  isTranscribing : Bool := false
  connectionStatus : ConnStatus := ConnStatus.checking
  useSpeechAPI : Bool := false
  speechRecognition : Bool := false
  isListening : Bool := false
  isRecording : Bool := false
  hasPermission : Option Bool := none
  audioBlob : Option Nat := none
deriving DecidableEq

/-- The props the component receives.  Absent and empty apiUrl are both falsy
in the JavaScript configuration check. -/
structure Props where
  apiUrl : Option String := none
  token : Option String := none
  speechRecognitionAvailable : Bool := false
deriving DecidableEq

/-- Observable operations the component performs: callback invocations and
calls into the hook or the speech recognizer. -/
inductive Action where
  | transcribeRequestSent (blob : Nat)
  | onTranscriptionComplete (transcription : String)
  | onError (message : String)
  | startRecordingCalled
  | stopRecordingCalled
  | speechStartCalled
  | speechStopCalled
deriving DecidableEq

/-- Embedding of the initializeConfig effect (component lines 256 to 282).
It only performs state updates; the returned action list records every
callback invocation it makes, which is none. -/
def initConfig (p : Props) (s : CompState) : CompState × List Action :=
  if jsTruthyStr p.apiUrl then
    ({ s with apiUrl := p.apiUrl.getD "", token := p.token.getD "",
              useSpeechAPI := false, errorMsg := "" }, [])
  else if p.speechRecognitionAvailable then
    ({ s with useSpeechAPI := true, errorMsg := "" }, [])
  else
    ({ s with useSpeechAPI := false,
              errorMsg := "No API configuration provided and Speech Recognition API is not supported in this browser." }, [])

/-- Embedding of the speech-recognition initialization effect (component lines
285 to 316): in speech mode with the capability present it installs a
recognizer and sets connectionStatus to connected. -/
def speechInitEffect (p : Props) (s : CompState) : CompState :=
  if s.useSpeechAPI then
    if p.speechRecognitionAvailable then
      { s with speechRecognition := true, connectionStatus := ConnStatus.connected }
    else s
  else s

/-- Embedding of the connection-test effect (component lines 319 to 332):
in remote mode with a nonempty apiUrl it runs the probe and stores the result. -/
def testConnEffect (healthOutcome : HttpOutcome) (s : CompState) : CompState :=
  if s.useSpeechAPI = false ∧ s.apiUrl ≠ "" then
    { s with connectionStatus :=
        if testConnection s.apiUrl s.token healthOutcome then ConnStatus.connected
        else ConnStatus.error }
  else s

/-- Mounting the component: the config effect, then the speech-init effect,
then the connection-test effect, starting from the initial state. -/
def mountComponent (p : Props) (healthOutcome : HttpOutcome) : CompState × List Action :=
  let r := initConfig p {}
  (testConnEffect healthOutcome (speechInitEffect p r.1), r.2)

/-- Embedding of isDisabled (component lines 387 to 396). -/
def isDisabledB (s : CompState) : Bool :=
  if s.useSpeechAPI then
    decide (s.connectionStatus = ConnStatus.error) ||
      decide (s.connectionStatus = ConnStatus.checking)
  else
    decide (s.hasPermission = some false) ||
      decide (s.connectionStatus = ConnStatus.error) ||
      s.isTranscribing ||
      decide (s.connectionStatus = ConnStatus.checking)

/-- The disabled attribute placed on the rendered button (component line 452). -/
def buttonDisabledAttr (s : CompState) : Bool := isDisabledB s

/-- Embedding of handleTranscribe (component lines 341 to 360).  The network
behaviour of the transcription call is the HttpOutcome parameter.  The handler
sets isTranscribing to true for the duration of the call and the finally block
always restores it to false, so the returned state carries the final value.
transcribeAudio is total, so the catch branch of the handler is dead code. -/
def handleTranscribe (s : CompState) (outcome : HttpOutcome) : CompState × List Action :=
  match s.audioBlob with
  | none => (s, [])
  | some blob =>
    if s.apiUrl = "" then (s, [])
    else
      let result := transcribeAudio blob s.apiUrl s.token s.timeout outcome
      let delivery :=
        if result.success then [Action.onTranscriptionComplete result.transcription]
        else [Action.onError (jsOrStr result.error "Transcription failed")]
      ({ s with isTranscribing := false }, Action.transcribeRequestSent blob :: delivery)

/-- Embedding of handleMicrophoneClick (component lines 362 to 385). -/
def handleMicrophoneClick (s : CompState) : CompState × List Action :=
  if s.useSpeechAPI then
    if s.speechRecognition then
      if s.isListening then (s, [Action.speechStopCalled])
      else (s, [Action.speechStartCalled])
    else (s, [])
  else
    if s.hasPermission = some false then (s, [Action.onError "Microphone access denied"])
    else if s.isRecording then (s, [Action.stopRecordingCalled])
    else (s, [Action.startRecordingCalled])

/-- The dependency array of the auto-transcribe effect (component line 339):
audioBlob, connectionStatus, useSpeechAPI. -/
structure AutoDeps where
  audioBlob : Option Nat
  connectionStatus : ConnStatus
  useSpeechAPI : Bool
deriving DecidableEq

/-- The guard of the auto-transcribe effect body (component line 336). -/
def effectGuard (d : AutoDeps) : Bool :=
  d.audioBlob.isSome && decide (d.connectionStatus = ConnStatus.connected) && !d.useSpeechAPI

/-- React effect semantics over a sequence of render commits: given the
dependency snapshot of the previous commit, count the commits at which the
auto-transcribe effect fires (first commit, or dependencies changed), its
guard holds, and the pending blob is the given one.  Each such commit is one
automatic transcription attempt for that blob. -/
def countAttempts (b : Nat) : Option AutoDeps → List AutoDeps → Nat
  | _, [] => 0
  | prev, d :: ds =>
    (if prev ≠ some d ∧ effectGuard d = true ∧ d.audioBlob = some b then 1 else 0)
      + countAttempts b (some d) ds

/-- Number of automatic transcription attempts for blob b over a commit trace
starting at mount. -/
def attemptsFor (trace : List AutoDeps) (b : Nat) : Nat :=
  countAttempts b none trace

/-- True when the previous commit did not already hold blob b. -/
def blobNew (b : Nat) : Option AutoDeps → Bool
  | none => true
  | some p => decide (p.audioBlob ≠ some b)

/-- True when some commit of the trace finalizes blob b (the blob appears,
differing from the previous commit) in remote mode while connectionStatus is
connected. -/
def finalizedWhileConnected (b : Nat) : Option AutoDeps → List AutoDeps → Bool
  | _, [] => false
  | prev, d :: ds =>
    (blobNew b prev && decide (d.audioBlob = some b) &&
      decide (d.connectionStatus = ConnStatus.connected) && !d.useSpeechAPI)
    || finalizedWhileConnected b (some d) ds

/-- Classifier for actions that deliver a transcription outcome to one of the
two callbacks. -/
def isOutcomeAction : Action → Bool
  | Action.onTranscriptionComplete _ => true
  | Action.onError _ => true
  | _ => false

/-- C6: transcribeAudio is total over every network outcome (the try/catch
never lets an exception escape) and on every failure returns the uniform
record with empty transcript, success false and a failure reason classified
as follows: for an error-status response the server-supplied error field, or
else the message field, or else the HTTP status code; for a request with no
response the fixed network-failure message; for a client-side failure the
client error message.  In particular an HTTP 500 with body error overloaded
yields the reason overloaded, which the component routes to the error
callback while isTranscribing returns to false. -/
theorem c6_failure_classification (blob timeout status : Nat)
    (apiUrl token e m msg : String) (eb : ErrorBody) :
    (∀ o : HttpOutcome, (transcribeAudio blob apiUrl token timeout o).success = false →
      (transcribeAudio blob apiUrl token timeout o).transcription = "" ∧
      (transcribeAudio blob apiUrl token timeout o).error.isSome = true) ∧
    (eb.error = some e → e ≠ "" →
      (transcribeAudio blob apiUrl token timeout (.errorStatus status (some eb))).error = some e) ∧
    (jsFalsy eb.error = true → eb.message = some m → m ≠ "" →
      (transcribeAudio blob apiUrl token timeout (.errorStatus status (some eb))).error = some m) ∧
    (jsFalsy eb.error = true → jsFalsy eb.message = true →
      (transcribeAudio blob apiUrl token timeout (.errorStatus status (some eb))).error =
        some ("HTTP " ++ toString status)) ∧
    ((transcribeAudio blob apiUrl token timeout (.errorStatus status none)).error =
      some ("HTTP " ++ toString status)) ∧
    ((transcribeAudio blob apiUrl token timeout .noResponse).error =
      some "Network error - no response from server") ∧
    ((transcribeAudio blob apiUrl token timeout (.clientError msg)).error = some msg) ∧
    (transcribeAudio 0 "https://api.test" "" 60000
        (.errorStatus 500 (some { error := some "overloaded" })) =
      { transcription := "", success := false, error := some "overloaded" }) ∧
    ((handleTranscribe { apiUrl := "https://api.test", audioBlob := some 0 }
        (.errorStatus 500 (some { error := some "overloaded" }))).2 =
      [Action.transcribeRequestSent 0, Action.onError "overloaded"]) ∧
    ((handleTranscribe { apiUrl := "https://api.test", audioBlob := some 0 }
        (.errorStatus 500 (some { error := some "overloaded" }))).1.isTranscribing = false) := by
  refine ⟨?_, ?_, ?_, ?_, rfl, rfl, rfl, by decide, by decide, by decide⟩
  · intro o
    cases o with
    | ok body => intro h; simp [transcribeAudio] at h
    | errorStatus status body => intro _; exact ⟨rfl, rfl⟩
    | noResponse => intro _; exact ⟨rfl, rfl⟩
    | clientError message => intro _; exact ⟨rfl, rfl⟩
    | unknownThrown => intro _; exact ⟨rfl, rfl⟩
  · intro he hne
    simp only [transcribeAudio, Option.some_bind, he, jsOrStr, if_neg hne]
  · intro hf hm hmne
    cases hb : eb.error with
    | none =>
        simp only [transcribeAudio, Option.some_bind, hb, hm, jsOrStr, if_neg hmne]
    | some s =>
        rw [hb] at hf
        simp only [jsFalsy, decide_eq_true_eq] at hf
        simp only [transcribeAudio, Option.some_bind, hb, hm, jsOrStr, if_pos hf, if_neg hmne]
  · intro hf hg
    cases hb : eb.error with
    | none =>
        cases hc : eb.message with
        | none => simp only [transcribeAudio, Option.some_bind, hb, hc, jsOrStr]
        | some s2 =>
            rw [hc] at hg
            simp only [jsFalsy, decide_eq_true_eq] at hg
            simp only [transcribeAudio, Option.some_bind, hb, hc, jsOrStr, if_pos hg]
    | some s =>
        rw [hb] at hf
        simp only [jsFalsy, decide_eq_true_eq] at hf
        cases hc : eb.message with
        | none => simp only [transcribeAudio, Option.some_bind, hb, hc, jsOrStr, if_pos hf]
        | some s2 =>
            rw [hc] at hg
            simp only [jsFalsy, decide_eq_true_eq] at hg
            simp only [transcribeAudio, Option.some_bind, hb, hc, jsOrStr, if_pos hf, if_pos hg]

/-- Witness for C6: the server-supplied error field wins the classification at
a concrete input. -/
theorem c6_failure_classification_witness :
    (transcribeAudio 0 "https://api.test" "" 60000
        (.errorStatus 500 (some { error := some "overloaded" }))).error = some "overloaded" :=
  (c6_failure_classification 0 60000 500 "https://api.test" "" "overloaded" "" ""
      { error := some "overloaded" }).2.1 rfl (by decide)

/-- C7: on a successful HTTP response the transcript is extracted tolerating
the flat shape (transcription or text at top level) and the nested shape
(under a data object); in particular the scenario body carrying transcription
hello world makes the component deliver hello world to the completion
callback. -/
theorem c7_transcript_extraction (t : String) (ht : t ≠ "") :
    extractTranscription { transcription := some t } = t ∧
    extractTranscription { text := some t } = t ∧
    extractTranscription { data := some { transcription := some t } } = t ∧
    extractTranscription { data := some { text := some t } } = t ∧
    (transcribeAudio 0 "https://api.test" "" 60000
        (.ok { transcription := some "hello world", success := some true })).transcription =
      "hello world" ∧
    ((handleTranscribe { apiUrl := "https://api.test", audioBlob := some 0 }
        (.ok { transcription := some "hello world", success := some true })).2 =
      [Action.transcribeRequestSent 0, Action.onTranscriptionComplete "hello world"]) := by
  refine ⟨?_, ?_, ?_, ?_, by decide, by decide⟩ <;>
    simp only [extractTranscription, jsOrStr, if_neg ht]

/-- Witness for C7 at a concrete transcript. -/
theorem c7_transcript_extraction_witness :
    extractTranscription { transcription := some "hello world" } = "hello world" :=
  (c7_transcript_extraction "hello world" (by decide)).1

/-- C10: every 2xx response yields success true unconditionally; the result is
independent of the body success flag and error field (they are never read);
a body with no recognized transcript field yields success true with an empty
transcript; and the component then delivers the empty string to the
completion callback rather than an error. -/
theorem c10_success_unconditional (blob timeout : Nat) (apiUrl token : String)
    (body : SuccessBody) (flagField : Option Bool) (errField : Option String) :
    (transcribeAudio blob apiUrl token timeout (.ok body)).success = true ∧
    transcribeAudio blob apiUrl token timeout
        (.ok { body with success := flagField, error := errField }) =
      transcribeAudio blob apiUrl token timeout (.ok body) ∧
    transcribeAudio blob apiUrl token timeout (.ok {}) =
      { transcription := "", success := true, error := none } ∧
    ((handleTranscribe { apiUrl := "https://api.test", audioBlob := some 0 }
        (.ok { success := some false, error := some "bad" })).2 =
      [Action.transcribeRequestSent 0, Action.onTranscriptionComplete ""]) := by
  refine ⟨rfl, ?_, rfl, by decide⟩
  cases body
  rfl

/-- Helper for C1: along a run of commits whose dependency snapshots all equal
the previous snapshot, the auto-transcribe effect never fires, so no further
attempts are counted. -/
theorem countAttempts_stable (b : Nat) (d : AutoDeps) :
    ∀ t2 : List AutoDeps, (∀ x ∈ t2, x = d) → countAttempts b (some d) t2 = 0 := by
  intro t2
  induction t2 with
  | nil => intro _; rfl
  | cons x xs ih =>
      intro h
      have hx : x = d := h x (List.mem_cons_self x xs)
      subst hx
      have h0 : ¬(some x ≠ some x ∧ effectGuard x = true ∧ x.audioBlob = some b) := by
        intro hc
        exact hc.1 rfl
      simp only [countAttempts, if_neg h0, Nat.zero_add]
      exact ih (fun y hy => h y (List.mem_cons_of_mem x hy))

/-- Helper for C1: if blob b never appears in the leading commits, does appear
at the pivot commit with the guard satisfied, and the dependencies never change
afterwards, then exactly one automatic attempt for b is counted. -/
theorem countAttempts_once (b : Nat) (d : AutoDeps) (t2 : List AutoDeps)
    (h2 : d.audioBlob = some b) (h3 : d.connectionStatus = ConnStatus.connected)
    (h4 : d.useSpeechAPI = false) (h5 : ∀ x ∈ t2, x = d) :
    ∀ (t1 : List AutoDeps) (prev : Option AutoDeps),
      (∀ x ∈ t1, x.audioBlob ≠ some b) →
      (∀ p, prev = some p → p.audioBlob ≠ some b) →
      countAttempts b prev (t1 ++ d :: t2) = 1 := by
  intro t1
  induction t1 with
  | nil =>
      intro prev _ hprev
      have hfire : prev ≠ some d := by
        intro hc
        exact hprev d hc h2
      have hguard : effectGuard d = true := by
        simp [effectGuard, h2, h3, h4]
      have hcond : prev ≠ some d ∧ effectGuard d = true ∧ d.audioBlob = some b :=
        ⟨hfire, hguard, h2⟩
      simp only [List.nil_append, countAttempts, if_pos hcond]
      rw [countAttempts_stable b d t2 h5]
  | cons x xs ih =>
      intro prev h1 _
      have hx : x.audioBlob ≠ some b := h1 x (List.mem_cons_self x xs)
      have h0 : ¬(prev ≠ some x ∧ effectGuard x = true ∧ x.audioBlob = some b) := by
        intro hc
        exact hx hc.2.2
      simp only [List.cons_append, countAttempts, if_neg h0, Nat.zero_add]
      exact ih (some x) (fun y hy => h1 y (List.mem_cons_of_mem x hy))
        (fun p hp => by cases hp; exact hx)

/-- C1 counterexample: a reachable commit trace of the remote-mode component
on which blob 0 is finalized while connectionStatus is connected, yet two
automatic transcription attempts are triggered for that single finalized blob.
The trace is: mount while checking, probe succeeds (connected), recording
stops (blob 0 finalized), the credential prop changes and the re-probe fails
(error), the credential changes back and the re-probe succeeds (connected);
the last commit re-fires the auto-transcribe effect on the same blob because
connectionStatus is among the effect dependencies. -/
theorem c1_counterexample :
    finalizedWhileConnected 0 none
        [⟨none, ConnStatus.checking, false⟩, ⟨none, ConnStatus.connected, false⟩,
         ⟨some 0, ConnStatus.connected, false⟩, ⟨some 0, ConnStatus.error, false⟩,
         ⟨some 0, ConnStatus.connected, false⟩] = true ∧
    attemptsFor
        [⟨none, ConnStatus.checking, false⟩, ⟨none, ConnStatus.connected, false⟩,
         ⟨some 0, ConnStatus.connected, false⟩, ⟨some 0, ConnStatus.error, false⟩,
         ⟨some 0, ConnStatus.connected, false⟩] 0 = 2 := by
  constructor
  · decide
  · decide

/-- C1 amended: finalizing blob b in remote mode while connected triggers
exactly one automatic transcription attempt provided the effect dependencies
(connection status and mode) then stay unchanged; each attempt issues exactly
one request, delivers exactly one outcome, routed to the completion callback
when the result succeeded and to the error callback otherwise, and leaves
isTranscribing false afterwards.  Without the stability proviso a
connection-status change away from and back to connected re-triggers an
attempt for the same blob. -/
theorem c1_single_attempt_per_stable_blob (t1 t2 : List AutoDeps) (d : AutoDeps)
    (b : Nat) (s : CompState) (o : HttpOutcome)
    (h1 : ∀ x ∈ t1, x.audioBlob ≠ some b)
    (h2 : d.audioBlob = some b) (h3 : d.connectionStatus = ConnStatus.connected)
    (h4 : d.useSpeechAPI = false) (h5 : ∀ x ∈ t2, x = d)
    (h6 : s.audioBlob = some b) (h7 : s.apiUrl ≠ "") :
    attemptsFor (t1 ++ d :: t2) b = 1 ∧
    (handleTranscribe s o).2 =
      Action.transcribeRequestSent b ::
        (if (transcribeAudio b s.apiUrl s.token s.timeout o).success then
          [Action.onTranscriptionComplete
            (transcribeAudio b s.apiUrl s.token s.timeout o).transcription]
        else
          [Action.onError
            (jsOrStr (transcribeAudio b s.apiUrl s.token s.timeout o).error
              "Transcription failed")]) ∧
    ((handleTranscribe s o).2.filter isOutcomeAction).length = 1 ∧
    (handleTranscribe s o).1.isTranscribing = false := by
  have hh : handleTranscribe s o =
      ({ s with isTranscribing := false },
        Action.transcribeRequestSent b ::
          (if (transcribeAudio b s.apiUrl s.token s.timeout o).success then
            [Action.onTranscriptionComplete
              (transcribeAudio b s.apiUrl s.token s.timeout o).transcription]
          else
            [Action.onError
              (jsOrStr (transcribeAudio b s.apiUrl s.token s.timeout o).error
                "Transcription failed")])) := by
    simp only [handleTranscribe, h6, if_neg h7]
  refine ⟨countAttempts_once b d t2 h2 h3 h4 h5 t1 none h1 (by intro p hp; cases hp), ?_, ?_, ?_⟩
  · rw [hh]
  · rw [hh]
    by_cases hs : (transcribeAudio b s.apiUrl s.token s.timeout o).success
    · simp [hs, isOutcomeAction, List.filter]
    · simp [hs, isOutcomeAction, List.filter]
  · rw [hh]

/-- Witness for C1 amended: a one-commit trace finalizing blob 0 while
connected, with a successful transcription of an empty body. -/
theorem c1_single_attempt_per_stable_blob_witness :
    attemptsFor ([] ++ ⟨some 0, ConnStatus.connected, false⟩ :: []) 0 = 1 ∧
    (handleTranscribe { apiUrl := "https://api.test", audioBlob := some 0 }
        (HttpOutcome.ok {})).2 =
      Action.transcribeRequestSent 0 ::
        (if (transcribeAudio 0 "https://api.test" "" 60000 (HttpOutcome.ok {})).success then
          [Action.onTranscriptionComplete
            (transcribeAudio 0 "https://api.test" "" 60000 (HttpOutcome.ok {})).transcription]
        else
          [Action.onError
            (jsOrStr (transcribeAudio 0 "https://api.test" "" 60000 (HttpOutcome.ok {})).error
              "Transcription failed")]) ∧
    ((handleTranscribe { apiUrl := "https://api.test", audioBlob := some 0 }
        (HttpOutcome.ok {})).2.filter isOutcomeAction).length = 1 ∧
    (handleTranscribe { apiUrl := "https://api.test", audioBlob := some 0 }
        (HttpOutcome.ok {})).1.isTranscribing = false :=
  c1_single_attempt_per_stable_blob [] [] ⟨some 0, ConnStatus.connected, false⟩ 0
    { apiUrl := "https://api.test", audioBlob := some 0 } (HttpOutcome.ok {})
    (by decide) rfl rfl rfl (by decide) rfl (by decide)

/-- C2 counterexample: a remote-mode state in which the component is disabled
because isTranscribing is true, yet invoking the click handler directly starts
a recording: the rejection does not hold at the handler level. -/
theorem c2_counterexample :
    isDisabledB
      { isTranscribing := true, connectionStatus := ConnStatus.connected,
        hasPermission := some true, apiUrl := "https://api.test" } = true ∧
    (handleMicrophoneClick
      { isTranscribing := true, connectionStatus := ConnStatus.connected,
        hasPermission := some true, apiUrl := "https://api.test" }).2 =
      [Action.startRecordingCalled] := by
  constructor
  · decide
  · decide

/-- C2 amended: suppression of interaction while disabled or transcribing is
enforced only by the disabled attribute of the rendered button, which is set
exactly under the disabled conditions; the click handler itself, in remote
mode, guards only the permission-denied case, where it invokes the error
callback with the access-denied message and performs no recording operation,
and under every other condition (including isTranscribing and a connection
error or pending check) it starts or stops recording as if enabled. -/
theorem c2_handler_behaviour (s : CompState) (hmode : s.useSpeechAPI = false) :
    (s.hasPermission = some false →
      handleMicrophoneClick s = (s, [Action.onError "Microphone access denied"])) ∧
    (s.hasPermission ≠ some false → s.isRecording = false →
      (handleMicrophoneClick s).2 = [Action.startRecordingCalled]) ∧
    (s.hasPermission ≠ some false → s.isRecording = true →
      (handleMicrophoneClick s).2 = [Action.stopRecordingCalled]) ∧
    (buttonDisabledAttr s = true ↔
      (s.hasPermission = some false ∨ s.connectionStatus = ConnStatus.error ∨
        s.isTranscribing = true ∨ s.connectionStatus = ConnStatus.checking)) := by
  refine ⟨?_, ?_, ?_, ?_⟩
  · intro hp
    simp [handleMicrophoneClick, hmode, hp]
  · intro hp hr
    simp [handleMicrophoneClick, hmode, hp, hr]
  · intro hp hr
    simp [handleMicrophoneClick, hmode, hp, hr]
  · simp only [buttonDisabledAttr, isDisabledB, hmode, Bool.false_eq_true, if_false,
      Bool.or_eq_true, decide_eq_true_eq]
    tauto

/-- Witness for C2 amended: in the permission-denied state the handler emits
exactly the access-denied error callback and changes nothing. -/
theorem c2_handler_behaviour_witness :
    handleMicrophoneClick { hasPermission := some false, connectionStatus := ConnStatus.connected } =
      ({ hasPermission := some false, connectionStatus := ConnStatus.connected },
         [Action.onError "Microphone access denied"]) :=
  (c2_handler_behaviour { hasPermission := some false, connectionStatus := ConnStatus.connected }
    rfl).1 rfl

/-- C3 counterexample: mounting with no apiUrl and no on-device speech
recognition records the configuration-error message in the internal error
state but invokes no callback at all, so the configuration error is never
reported through the onError callback. -/
theorem c3_counterexample :
    (mountComponent { apiUrl := none, token := none, speechRecognitionAvailable := false }
        HttpOutcome.noResponse).1.errorMsg =
      "No API configuration provided and Speech Recognition API is not supported in this browser." ∧
    (mountComponent { apiUrl := none, token := none, speechRecognitionAvailable := false }
        HttpOutcome.noResponse).2 = [] := by
  constructor
  · decide
  · decide

/-- C3 amended: on mount, configuration is resolved once with explicit
parameters taking priority (a truthy apiUrl selects remote mode and stores the
endpoint and optional token); otherwise an available on-device recognition
capability is used as fallback; otherwise a configuration-error message is
recorded in the internal error state only (never delivered through the onError
callback), connectionStatus stays checking, and the control remains disabled. -/
theorem c3_config_resolution (p : Props) (o : HttpOutcome) :
    (jsTruthyStr p.apiUrl = true →
      (mountComponent p o).1.useSpeechAPI = false ∧
      (mountComponent p o).1.apiUrl = p.apiUrl.getD "" ∧
      (mountComponent p o).1.token = p.token.getD "") ∧
    (jsTruthyStr p.apiUrl = false → p.speechRecognitionAvailable = true →
      (mountComponent p o).1.useSpeechAPI = true ∧
      (mountComponent p o).1.errorMsg = "") ∧
    (jsTruthyStr p.apiUrl = false → p.speechRecognitionAvailable = false →
      (mountComponent p o).1.errorMsg =
        "No API configuration provided and Speech Recognition API is not supported in this browser." ∧
      (mountComponent p o).2 = [] ∧
      (mountComponent p o).1.connectionStatus = ConnStatus.checking ∧
      isDisabledB (mountComponent p o).1 = true) := by
  refine ⟨?_, ?_, ?_⟩
  · intro hurl
    have hne : p.apiUrl.getD "" ≠ "" := by
      cases hu : p.apiUrl with
      | none => rw [hu] at hurl; simp [jsTruthyStr] at hurl
      | some u =>
          rw [hu] at hurl
          simp only [jsTruthyStr, decide_eq_true_eq] at hurl
          simpa using hurl
    simp [mountComponent, initConfig, speechInitEffect, testConnEffect, hurl, hne]
  · intro hurl hsp
    simp [mountComponent, initConfig, speechInitEffect, testConnEffect, hurl, hsp]
  · intro hurl hsp
    simp [mountComponent, initConfig, speechInitEffect, testConnEffect, isDisabledB, hurl, hsp]

/-- Witness for C3 amended: the unconfigured mount keeps the control disabled
and emits nothing. -/
theorem c3_config_resolution_witness :
    (mountComponent { apiUrl := none, token := none, speechRecognitionAvailable := false }
        HttpOutcome.noResponse).1.errorMsg =
      "No API configuration provided and Speech Recognition API is not supported in this browser." ∧
    (mountComponent { apiUrl := none, token := none, speechRecognitionAvailable := false }
        HttpOutcome.noResponse).2 = [] ∧
    (mountComponent { apiUrl := none, token := none, speechRecognitionAvailable := false }
        HttpOutcome.noResponse).1.connectionStatus = ConnStatus.checking ∧
    isDisabledB
      (mountComponent { apiUrl := none, token := none, speechRecognitionAvailable := false }
        HttpOutcome.noResponse).1 = true :=
  (c3_config_resolution { apiUrl := none, token := none, speechRecognitionAvailable := false }
    HttpOutcome.noResponse).2.2 rfl rfl

/-! Embedding of the capture hook useAudioRecorder (unnamed source file,
src/hooks/useAudioRecorder.ts).  Hardware capture streams are given fresh
numeric identities by a counter; openedStreams records every stream handed out
by getUserMedia and releasedStreams records every call that stops the tracks
of a stream, so double releases and leaks are visible as list properties.
A recorder is identified by the stream it owns.  The onstop handler of the
recorder (which finalizes the blob, creates the playback URL and stops the
stream tracks) is modelled synchronously at the point the recorder is
stopped, matching the ordering guarantee stated for stop in the
specification. -/

/-- State of the useAudioRecorder hook, including its refs and the ghost
stream-accounting lists. -/
structure HookState where
  isRecording : Bool := false
  recordingTime : Nat := 0
  hasPermission : Option Bool := none
  error : Option String := none
  audioBlob : Option Nat := none
  audioUrl : Option Nat := none
  mediaRecorder : Option Nat := none
  timerRunning : Bool := false
  nextStreamId : Nat := 0
  openedStreams : List Nat := []
  releasedStreams : List Nat := []
deriving DecidableEq

/-- The initial hook state. -/
def initHook : HookState := {}

/-- Successful branch of requestPermission: getUserMedia opens a probe stream
whose tracks are stopped immediately after the permission check. -/
def grantPermission (s : HookState) : HookState :=
  { s with hasPermission := some true,
           nextStreamId := s.nextStreamId + 1,
           openedStreams := s.openedStreams ++ [s.nextStreamId],
           releasedStreams := s.releasedStreams ++ [s.nextStreamId] }

/-- Failing branch of requestPermission: getUserMedia throws, permission is
recorded as denied and the failure surfaces as an error string. -/
def denyPermission (s : HookState) : HookState :=
  { s with hasPermission := some false, error := some "Failed to access microphone" }

/-- Embedding of requestPermission (hook lines 50 to 64): clear the error,
then record the platform answer; no stream survives the call. -/
def requestPermission (grant : Bool) (s : HookState) : HookState × Bool :=
  if grant then (grantPermission { s with error := none }, true)
  else (denyPermission { s with error := none }, false)

/-- Capture setup inside startRecording (hook lines 76 to 113): getUserMedia
opens a fresh stream (or fails, surfacing an error string), a recorder is
created over it and started, and the elapsed-time counter restarts. -/
def startCapture (streamOk : Bool) (s : HookState) : HookState :=
  if streamOk then
    { s with nextStreamId := s.nextStreamId + 1,
             openedStreams := s.openedStreams ++ [s.nextStreamId],
             mediaRecorder := some s.nextStreamId,
             isRecording := true,
             recordingTime := 0,
             timerRunning := true }
  else
    { s with error := some "Failed to start recording" }

/-- Embedding of startRecording (hook lines 66 to 119): clear the error,
request permission first unless already granted, then open the capture
stream.  The previously held recorder reference is overwritten without being
stopped. -/
def startRecording (grant streamOk : Bool) (s : HookState) : HookState :=
  if ({ s with error := none } : HookState).hasPermission = some true then
    startCapture streamOk { s with error := none }
  else if (requestPermission grant { s with error := none }).2 then
    startCapture streamOk (requestPermission grant { s with error := none }).1
  else
    (requestPermission grant { s with error := none }).1

/-- Embedding of stopRecording (hook lines 121 to 127): only when a recorder
exists and isRecording holds, stop the recorder (the onstop handler finalizes
the blob and URL and stops the stream tracks), clear isRecording and stop the
timer; otherwise do nothing. -/
def stopRecording (s : HookState) : HookState :=
  match s.mediaRecorder with
  | some sid =>
      if s.isRecording then
        { s with audioBlob := some sid,
                 audioUrl := some sid,
                 releasedStreams := s.releasedStreams ++ [sid],
                 isRecording := false,
                 timerRunning := false }
      else s
  | none => s

/-- Embedding of resetRecording (hook lines 129 to 145), as its net state
effect: when a recorder exists and a recording is active it is stopped (its
onstop handler releases the stream); then the recording flag, elapsed time,
blob, playback URL (revoked when present), timer and error are all cleared.
Modelling note: the onstop handler is applied synchronously at the stop call,
so blob and URL end up cleared here; in the browser the handler fires after
the body of resetRecording and re-sets them.  The stream-release accounting,
which is what the theorems about this function use, is identical either way. -/
def resetRecording (s : HookState) : HookState :=
  match s.mediaRecorder, s.isRecording with
  | some sid, true =>
      { s with isRecording := false, recordingTime := 0, audioBlob := none,
               audioUrl := none,
               releasedStreams := s.releasedStreams ++ [sid],
               timerRunning := false, error := none }
  | _, _ =>
      { s with isRecording := false, recordingTime := 0, audioBlob := none,
               audioUrl := none, timerRunning := false, error := none }

/-- The three hook operations a caller can invoke; a start event carries the
platform answers (permission grant, capture stream availability). -/
inductive HookEvent where
  | start (grant streamOk : Bool)
  | stop
  | reset
deriving DecidableEq

/-- One hook operation applied to the state. -/
def hookStep (s : HookState) : HookEvent → HookState
  | .start grant streamOk => startRecording grant streamOk s
  | .stop => stopRecording s
  | .reset => resetRecording s

/-- A sequence of hook operations applied in order. -/
def runHook (s : HookState) (es : List HookEvent) : HookState :=
  es.foldl hookStep s

/-- Well-formed call sequences: startRecording is only invoked while no
recording is active, which is how the component uses the hook (its click
handler starts only when isRecording is false). -/
def wfEvents (s : HookState) : List HookEvent → Bool
  | [] => true
  | e :: es =>
    (match e with
     | .start _ _ => !s.isRecording
     | .stop => true
     | .reset => true) && wfEvents (hookStep s e) es

/-- Stream-accounting invariant of the hook state: stream identities are
below the counter, the current recorder owns an opened stream, no stream is
released twice, the stream of an actively recording recorder is not yet
released, the stream of a stopped recorder is released, and every opened
stream is either released or owned by the actively recording recorder. -/
structure HookInv (s : HookState) : Prop where
  openLt : ∀ sid ∈ s.openedStreams, sid < s.nextStreamId
  relLt : ∀ sid ∈ s.releasedStreams, sid < s.nextStreamId
  recOpen : ∀ sid, s.mediaRecorder = some sid → sid ∈ s.openedStreams
  nodup : s.releasedStreams.Nodup
  activeNotRel : ∀ sid, s.mediaRecorder = some sid → s.isRecording = true →
    sid ∉ s.releasedStreams
  idleRel : ∀ sid, s.mediaRecorder = some sid → s.isRecording = false →
    sid ∈ s.releasedStreams
  noLeak : ∀ sid ∈ s.openedStreams,
    sid ∈ s.releasedStreams ∨ (s.mediaRecorder = some sid ∧ s.isRecording = true)

/-- Appending a fresh element keeps a list without duplicates. -/
theorem nodup_append_singleton (l : List Nat) (n : Nat) (hl : l.Nodup) (hn : n ∉ l) :
    (l ++ [n]).Nodup := by
  rw [List.nodup_append]
  refine ⟨hl, List.nodup_singleton n, ?_⟩
  intro a ha hb
  rw [List.mem_singleton] at hb
  subst hb
  exact hn ha


/-- Opening and immediately releasing the permission-probe stream preserves
the stream invariant. -/
theorem hookInv_grantPermission (s : HookState) (hinv : HookInv s) :
    HookInv (grantPermission s) := by
  unfold grantPermission
  refine ⟨?_, ?_, ?_, ?_, ?_, ?_, ?_⟩
  · intro sid hsid
    rcases List.mem_append.1 hsid with h | h
    · exact Nat.lt_succ_of_lt (hinv.openLt sid h)
    · rw [List.mem_singleton] at h
      subst h
      exact Nat.lt_succ_self _
  · intro sid hsid
    rcases List.mem_append.1 hsid with h | h
    · exact Nat.lt_succ_of_lt (hinv.relLt sid h)
    · rw [List.mem_singleton] at h
      subst h
      exact Nat.lt_succ_self _
  · intro sid hsid
    exact List.mem_append.2 (Or.inl (hinv.recOpen sid hsid))
  · exact nodup_append_singleton _ _ hinv.nodup
      (fun h => Nat.lt_irrefl _ (hinv.relLt _ h))
  · intro sid hrec hrecd hmem
    rcases List.mem_append.1 hmem with h | h
    · exact hinv.activeNotRel sid hrec hrecd h
    · rw [List.mem_singleton] at h
      subst h
      exact Nat.lt_irrefl _ (hinv.openLt _ (hinv.recOpen _ hrec))
  · intro sid hrec hrecd
    exact List.mem_append.2 (Or.inl (hinv.idleRel sid hrec hrecd))
  · intro sid hsid
    rcases List.mem_append.1 hsid with h | h
    · rcases hinv.noLeak sid h with h2 | h2
      · exact Or.inl (List.mem_append.2 (Or.inl h2))
      · exact Or.inr h2
    · exact Or.inl (List.mem_append.2 (Or.inr h))

/-- Opening the capture stream from a non-recording state preserves the
stream invariant. -/
theorem hookInv_startCapture (streamOk : Bool) (s : HookState) (hinv : HookInv s)
    (hrec : s.isRecording = false) : HookInv (startCapture streamOk s) := by
  unfold startCapture
  cases streamOk with
  | false =>
      exact ⟨hinv.openLt, hinv.relLt, hinv.recOpen, hinv.nodup, hinv.activeNotRel,
        hinv.idleRel, hinv.noLeak⟩
  | true =>
      refine ⟨?_, ?_, ?_, hinv.nodup, ?_, ?_, ?_⟩
      · intro sid hsid
        rcases List.mem_append.1 hsid with h | h
        · exact Nat.lt_succ_of_lt (hinv.openLt sid h)
        · rw [List.mem_singleton] at h
          subst h
          exact Nat.lt_succ_self _
      · intro sid hsid
        exact Nat.lt_succ_of_lt (hinv.relLt sid hsid)
      · intro sid hsid
        have h : sid = s.nextStreamId := (Option.some.inj hsid).symm
        subst h
        exact List.mem_append.2 (Or.inr (List.mem_singleton.2 rfl))
      · intro sid hrec2 _ hmem
        have h : sid = s.nextStreamId := (Option.some.inj hrec2).symm
        subst h
        exact Nat.lt_irrefl _ (hinv.relLt _ hmem)
      · intro sid _ hrecd
        exact absurd hrecd (by simp)
      · intro sid hsid
        rcases List.mem_append.1 hsid with h | h
        · rcases hinv.noLeak sid h with h2 | h2
          · exact Or.inl h2
          · rw [hrec] at h2
            exact absurd h2.2 (by simp)
        · rw [List.mem_singleton] at h
          subst h
          exact Or.inr ⟨rfl, rfl⟩

/-- startRecording from a non-recording state preserves the stream invariant. -/
theorem hookInv_startRecording (grant streamOk : Bool) (s : HookState)
    (hinv : HookInv s) (hrec : s.isRecording = false) :
    HookInv (startRecording grant streamOk s) := by
  unfold startRecording
  have hinv0 : HookInv ({ s with error := none }) :=
    ⟨hinv.openLt, hinv.relLt, hinv.recOpen, hinv.nodup, hinv.activeNotRel,
      hinv.idleRel, hinv.noLeak⟩
  by_cases hp : ({ s with error := none } : HookState).hasPermission = some true
  · rw [if_pos hp]
    exact hookInv_startCapture streamOk _ hinv0 hrec
  · rw [if_neg hp]
    cases grant with
    | true =>
        exact hookInv_startCapture streamOk _
          (hookInv_grantPermission _ hinv0) hrec
    | false =>
        exact ⟨hinv.openLt, hinv.relLt, hinv.recOpen, hinv.nodup, hinv.activeNotRel,
          hinv.idleRel, hinv.noLeak⟩

/-- stopRecording preserves the stream invariant unconditionally. -/
theorem hookInv_stopRecording (s : HookState) (hinv : HookInv s) :
    HookInv (stopRecording s) := by
  unfold stopRecording
  cases hm : s.mediaRecorder with
  | none => exact hinv
  | some sid =>
      cases hr : s.isRecording with
      | false => exact hinv
      | true =>
          refine ⟨hinv.openLt, ?_, ?_, ?_, ?_, ?_, ?_⟩
          · intro x hx
            rcases List.mem_append.1 hx with h | h
            · exact hinv.relLt x h
            · rw [List.mem_singleton] at h
              subst h
              exact hinv.openLt _ (hinv.recOpen _ hm)
          · intro x hx
            have h : x = sid := (Option.some.inj hx).symm
            subst h
            exact hinv.recOpen x hm
          · exact nodup_append_singleton _ _ hinv.nodup
              (hinv.activeNotRel sid hm hr)
          · intro x _ hrecd
            exact absurd hrecd (by simp)
          · intro x hx _
            have h : x = sid := (Option.some.inj hx).symm
            subst h
            exact List.mem_append.2 (Or.inr (List.mem_singleton.2 rfl))
          · intro x hx
            rcases hinv.noLeak x hx with h2 | h2
            · exact Or.inl (List.mem_append.2 (Or.inl h2))
            · rw [hm] at h2
              have h : x = sid := (Option.some.inj h2.1).symm
              subst h
              exact Or.inl (List.mem_append.2 (Or.inr (List.mem_singleton.2 rfl)))

/-- resetRecording preserves the stream invariant unconditionally. -/
theorem hookInv_resetRecording (s : HookState) (hinv : HookInv s) :
    HookInv (resetRecording s) := by
  unfold resetRecording
  cases hm : s.mediaRecorder with
  | none =>
      cases hr : s.isRecording with
      | false =>
          refine ⟨hinv.openLt, hinv.relLt, ?_, hinv.nodup, ?_, ?_, ?_⟩
          · intro x hx
            exact Option.noConfusion hx
          · intro x hx
            exact Option.noConfusion hx
          · intro x hx
            exact Option.noConfusion hx
          · intro x hx
            rcases hinv.noLeak x hx with h2 | h2
            · exact Or.inl h2
            · rw [hm] at h2
              exact Option.noConfusion h2.1
      | true =>
          refine ⟨hinv.openLt, hinv.relLt, ?_, hinv.nodup, ?_, ?_, ?_⟩
          · intro x hx
            exact Option.noConfusion hx
          · intro x hx
            exact Option.noConfusion hx
          · intro x hx
            exact Option.noConfusion hx
          · intro x hx
            rcases hinv.noLeak x hx with h2 | h2
            · exact Or.inl h2
            · rw [hm] at h2
              exact Option.noConfusion h2.1
  | some sid =>
      cases hr : s.isRecording with
      | false =>
          refine ⟨hinv.openLt, hinv.relLt, ?_, hinv.nodup, ?_, ?_, ?_⟩
          · intro x hx
            have h : x = sid := (Option.some.inj hx).symm
            subst h
            exact hinv.recOpen x hm
          · intro x _ hrecd
            exact absurd hrecd (by simp)
          · intro x hx _
            have h : x = sid := (Option.some.inj hx).symm
            subst h
            exact hinv.idleRel x hm hr
          · intro x hx
            rcases hinv.noLeak x hx with h2 | h2
            · exact Or.inl h2
            · rw [hr] at h2
              exact absurd h2.2 (by simp)
      | true =>
          refine ⟨hinv.openLt, ?_, ?_, ?_, ?_, ?_, ?_⟩
          · intro x hx
            rcases List.mem_append.1 hx with h | h
            · exact hinv.relLt x h
            · rw [List.mem_singleton] at h
              subst h
              exact hinv.openLt _ (hinv.recOpen _ hm)
          · intro x hx
            have h : x = sid := (Option.some.inj hx).symm
            subst h
            exact hinv.recOpen x hm
          · exact nodup_append_singleton _ _ hinv.nodup
              (hinv.activeNotRel sid hm hr)
          · intro x _ hrecd
            exact absurd hrecd (by simp)
          · intro x hx _
            have h : x = sid := (Option.some.inj hx).symm
            subst h
            exact List.mem_append.2 (Or.inr (List.mem_singleton.2 rfl))
          · intro x hx
            rcases hinv.noLeak x hx with h2 | h2
            · exact Or.inl (List.mem_append.2 (Or.inl h2))
            · rw [hm] at h2
              have h : x = sid := (Option.some.inj h2.1).symm
              subst h
              exact Or.inl (List.mem_append.2 (Or.inr (List.mem_singleton.2 rfl)))

/-- One well-formed hook operation preserves the stream invariant. -/
theorem hookInv_step (s : HookState) (e : HookEvent) (hinv : HookInv s)
    (hwf : (match e with
            | HookEvent.start _ _ => !s.isRecording
            | HookEvent.stop => true
            | HookEvent.reset => true) = true) :
    HookInv (hookStep s e) := by
  cases e with
  | start grant streamOk =>
      have hrec : s.isRecording = false := by simpa using hwf
      exact hookInv_startRecording grant streamOk s hinv hrec
  | stop => exact hookInv_stopRecording s hinv
  | reset => exact hookInv_resetRecording s hinv

/-- The initial hook state satisfies the stream invariant. -/
theorem hookInv_init : HookInv initHook := by
  refine ⟨?_, ?_, ?_, ?_, ?_, ?_, ?_⟩ <;> simp [initHook]

/-- A well-formed sequence of hook operations preserves the stream invariant. -/
theorem hookInv_run (es : List HookEvent) :
    ∀ s : HookState, HookInv s → wfEvents s es = true → HookInv (runHook s es) := by
  induction es with
  | nil => intro s hinv _; exact hinv
  | cons e es ih =>
      intro s hinv hwf
      simp only [wfEvents, Bool.and_eq_true] at hwf
      simp only [runHook, List.foldl_cons]
      exact ih (hookStep s e) (hookInv_step s e hinv hwf.1) hwf.2

/-- C8 counterexample: the call sequence start, start, stop, reset leaves the
stream opened by the first start neither stopped by the stop call nor by the
reset call: calling startRecording while a recording is active overwrites the
recorder reference and orphans the active stream, a leak the claim rules out.
The first stream (identity 0) is the permission probe, the first capture
stream has identity 1. -/
theorem c8_counterexample :
    1 ∈ (runHook initHook
      [HookEvent.start true true, HookEvent.start true true,
       HookEvent.stop, HookEvent.reset]).openedStreams ∧
    1 ∉ (runHook initHook
      [HookEvent.start true true, HookEvent.start true true,
       HookEvent.stop, HookEvent.reset]).releasedStreams := by
  constructor
  · decide
  · decide

/-- C8 amended: for every sequence of hook operations in which startRecording
is only invoked while no recording is active (which is how the component
drives the hook), no stream is ever released twice, and every opened stream
has been released except the one owned by a still-active recording; in
particular every stop or reset of an active session releases its stream
exactly once.  Invoking startRecording during an active recording, however,
orphans the active stream. -/
theorem c8_release_discipline (es : List HookEvent)
    (hwf : wfEvents initHook es = true) :
    (runHook initHook es).releasedStreams.Nodup ∧
    ∀ sid ∈ (runHook initHook es).openedStreams,
      sid ∈ (runHook initHook es).releasedStreams ∨
        ((runHook initHook es).mediaRecorder = some sid ∧
          (runHook initHook es).isRecording = true) := by
  have h := hookInv_run es initHook hookInv_init hwf
  exact ⟨h.nodup, h.noLeak⟩

/-- Witness for C8 amended on the sequence start then stop. -/
theorem c8_release_discipline_witness :
    (runHook initHook [HookEvent.start true true, HookEvent.stop]).releasedStreams.Nodup :=
  (c8_release_discipline [HookEvent.start true true, HookEvent.stop] (by decide)).1

/-- stopRecording does nothing when no recording is active. -/
theorem stopRecording_idle (s : HookState)
    (h : s.isRecording = false ∨ s.mediaRecorder = none) :
    stopRecording s = s := by
  unfold stopRecording
  cases hm : s.mediaRecorder with
  | none => rfl
  | some sid =>
      rcases h with h | h
      · rw [h]
        rfl
      · rw [h] at hm
        exact Option.noConfusion hm

/-- After stopRecording the recording flag is down, unless the call was a
no-op. -/
theorem stopRecording_flag (s : HookState) :
    (stopRecording s).isRecording = false ∨ stopRecording s = s := by
  unfold stopRecording
  cases hm : s.mediaRecorder with
  | none => exact Or.inr rfl
  | some sid =>
      cases hr : s.isRecording with
      | false => exact Or.inr rfl
      | true => exact Or.inl rfl

/-- C9: calling stopRecording when no recording is active (the flag is down
or no recorder exists) returns the state unchanged in every field, performing
no recorder, stream or timer operation; and each startRecording admits
exactly one stopRecording transition: a stop after a successful start (the
capture stream opened, permission already granted or granted on request) is
effective, in that it changes the state, clears the recording flag and
releases exactly the freshly opened session stream, while stopRecording is
idempotent, so no further stop transitions again before the next start. -/
theorem c9_stop_idle_noop (s : HookState)
    (h : s.isRecording = false ∨ s.mediaRecorder = none) :
    stopRecording s = s ∧
    (∀ s2 : HookState, stopRecording (stopRecording s2) = stopRecording s2) ∧
    (∀ (grant : Bool) (s3 : HookState), s3.hasPermission = some true ∨ grant = true →
      (startRecording grant true s3).isRecording = true ∧
      stopRecording (startRecording grant true s3) ≠ startRecording grant true s3 ∧
      (stopRecording (startRecording grant true s3)).isRecording = false ∧
      (stopRecording (startRecording grant true s3)).releasedStreams =
        (startRecording grant true s3).releasedStreams ++
          [(startRecording grant true s3).mediaRecorder.getD 0]) := by
  refine ⟨stopRecording_idle s h, ?_, ?_⟩
  · intro s2
    rcases stopRecording_flag s2 with h2 | h2
    · exact stopRecording_idle (stopRecording s2) (Or.inl h2)
    · rw [h2]
      exact h2
  · intro grant s3 hgp
    by_cases hp : ({ s3 with error := none } : HookState).hasPermission = some true
    · have hstart : startRecording grant true s3 =
          startCapture true { s3 with error := none } := by
        unfold startRecording
        rw [if_pos hp]
      rw [hstart]
      refine ⟨rfl, ?_, rfl, rfl⟩
      intro heq
      have h2 : (startCapture true { s3 with error := none }).isRecording = false := by
        rw [← heq]
        rfl
      exact Bool.noConfusion h2
    · have hg : grant = true := by
        rcases hgp with h1 | h1
        · exact absurd h1 hp
        · exact h1
      subst hg
      have hstart : startRecording true true s3 =
          startCapture true (grantPermission { s3 with error := none }) := by
        unfold startRecording
        rw [if_neg hp]
        rfl
      rw [hstart]
      refine ⟨rfl, ?_, rfl, rfl⟩
      intro heq
      have h2 : (startCapture true
          (grantPermission { s3 with error := none })).isRecording = false := by
        rw [← heq]
        rfl
      exact Bool.noConfusion h2

/-- Witness for C9 at the initial hook state: stop while idle is a no-op,
and the stop after a concrete successful start clears the recording flag. -/
theorem c9_stop_idle_noop_witness :
    stopRecording initHook = initHook ∧
    (stopRecording (startRecording true true initHook)).isRecording = false :=
  ⟨(c9_stop_idle_noop initHook (Or.inl rfl)).1,
   ((c9_stop_idle_noop initHook (Or.inl rfl)).2.2 true initHook (Or.inr rfl)).2.2.1⟩

end Konnektaro
